import Mathlib

/-!
Verification of the GitHub-Actions → GitLab status monitor
(`monitor/main.go` of vishalkumar1007/Go-Server, branch-based version 1.1.0).

The Go program is shallowly embedded: every struct becomes a Lean structure
with the same fields, every pure function becomes a Lean function with the
same branching structure, and the effectful poll loop becomes a step function
over an explicit state, with each tick's network results supplied as input
(a fetch that failed is `none`, a fetch that succeeded carries its decoded
value).  Go `int` fields are modelled as `Int`; Go durations are integer
nanosecond counts; Go time values are integer second counts from the zero
time (year 1, January 1, 00:00:00 UTC), which is all the monitor ever needs
(it only forms differences and rounds them to whole seconds).
-/

namespace Monitor

/-- Embeds Go struct `GitHubWorkflowRun` (monitor/main.go): one workflow run
as decoded from the GitHub API. -/
structure GitHubWorkflowRun where
  id : Int
  name : String
  status : String
  conclusion : String
  created_at : String
  updated_at : String
  run_started_at : String
  html_url : String
  head_sha : String
  head_branch : String
  event : String
  run_number : Int
  run_attempt : Int
deriving DecidableEq

/-- Embeds Go struct `GitHubJobStep`: one step of a job. -/
structure GitHubJobStep where
  name : String
  status : String
  conclusion : String
  number : Int
  started_at : String
  completed_at : String
deriving DecidableEq

/-- Embeds Go struct `GitHubJob`: one job of a run, with its ordered steps. -/
structure GitHubJob where
  id : Int
  run_id : Int
  name : String
  status : String
  conclusion : String
  created_at : String
  started_at : String
  completed_at : String
  html_url : String
  steps : List GitHubJobStep
deriving DecidableEq

/-- Embeds `mapToGitLabState` (monitor/main.go lines 338-358): converts a
GitHub (status, conclusion) pair to a GitLab commit-status state.  The Go
`switch` on `status` with a nested `switch` on `conclusion` becomes the same
chain of equality tests, `default` branches last. -/
def mapToGitLabState (status conclusion : String) : String :=
  if status = "queued" then "pending"
  else if status = "in_progress" then "running"
  else if status = "completed" then
    if conclusion = "success" then "success"
    else if conclusion = "failure" then "failed"
    else if conclusion = "cancelled" then "canceled"
    else "failed"
  else "pending"

/-- Embeds `getStatusSymbol` (monitor/main.go lines 315-335): emoji chosen
for a (status, conclusion) pair, with a question-mark default. -/
def getStatusSymbol (status conclusion : String) : String :=
  if status = "queued" then "⏳"
  else if status = "in_progress" then "🔄"
  else if status = "completed" then
    if conclusion = "success" then "✅"
    else if conclusion = "failure" then "❌"
    else if conclusion = "cancelled" then "⚠️"
    else "❓"
  else "❓"

/-- The tracked baseline of the poll loop: Go locals `lastStatus`,
`lastConclusion`, `lastRunID` of `startMonitoring` (monitor/main.go
line 483-484). -/
structure TrackedState where
  lastStatus : String
  lastConclusion : String
  lastRunID : Int
deriving DecidableEq

/-- The baseline at loop entry: Go zero values `""`, `""`, `0`. -/
def initialTracked : TrackedState := ⟨"", "", 0⟩

/-- Embeds the change test of the poll loop (monitor/main.go lines 523-525):
`statusChanged := currentRun.Status != lastStatus || currentRun.Conclusion !=
lastConclusion || currentRun.ID != lastRunID`. -/
def statusChanged (st : TrackedState) (run : GitHubWorkflowRun) : Bool :=
  run.status != st.lastStatus || run.conclusion != st.lastConclusion ||
    run.id != st.lastRunID

/-- Embeds the candidate scan of the poll loop (monitor/main.go lines
504-514): walk the fetched run list in order; on a run whose `HeadBranch`
equals the configured branch, re-fetch its detail record
(`getSpecificWorkflowRun`, supplied here as the function `detailFetch`,
`none` meaning the fetch returned an error); `break` with the detailed run
only when that fetch succeeded, otherwise the `for` loop continues with the
next candidate. -/
def locateRun (branchName : String) (detailFetch : Int → Option GitHubWorkflowRun) :
    List GitHubWorkflowRun → Option GitHubWorkflowRun
  | [] => none
  | run :: rest =>
    if run.head_branch = branchName then
      match detailFetch run.id with
      | some detailed => some detailed
      | none => locateRun branchName detailFetch rest
    else locateRun branchName detailFetch rest

/-- Outcome of one HTTP round-trip as seen by the caller of
`http.Client.Do`: either a transport error, or a response with some status
code. -/
inductive HTTPOutcome where
  | transportError
  | response (statusCode : Nat)
deriving DecidableEq

/-- Embeds `updateGitLabStatus` (monitor/main.go lines 286-312) as a
function of the HTTP round-trip outcome; `true` means the Go function
returned `nil`.  The Go code returns the error of `gm.HTTPClient.Do(req)`
when that fails, and after receiving any response it closes the body and
executes `return nil` without ever reading `resp.StatusCode`. -/
def updateGitLabStatus (outcome : HTTPOutcome) : Bool :=
  match outcome with
  | .transportError => false
  | .response _ => true

/-- Helper for the timestamp model: interpret a fixed-width run of decimal
digits, `none` if any character is not a digit. -/
def parseDigits (cs : List Char) : Option Nat :=
  if cs.all Char.isDigit then
    some (cs.foldl (fun acc c => acc * 10 + (c.toNat - 48)) 0)
  else none

/-- Days in a month of the proleptic Gregorian calendar (Go's calendar). -/
def daysInMonth (year month : Nat) : Nat :=
  if month = 2 then
    if year % 4 = 0 ∧ (year % 100 ≠ 0 ∨ year % 400 = 0) then 29 else 28
  else if month = 4 ∨ month = 6 ∨ month = 9 ∨ month = 11 then 30
  else 31

/-- Days of the proleptic Gregorian calendar strictly before January 1 of
`year` (year 1 being the zero point, as in Go's `time.Time` zero value). -/
def daysBeforeYear (year : Nat) : Nat :=
  let n := year - 1
  365 * n + n / 4 - n / 100 + n / 400

/-- Days of `year` strictly before the first of `month`. -/
def daysBeforeMonth (year month : Nat) : Nat :=
  (List.range month).foldl
    (fun acc m => if 1 ≤ m then acc + daysInMonth year m else acc) 0

/-- Seconds from the zero time (0001-01-01T00:00:00 UTC, Go's `time.Time`
zero value) to the given calendar instant. -/
def secondsFromZeroTime (year month day hour minute second : Nat) : Nat :=
  (((daysBeforeYear year + daysBeforeMonth year month + (day - 1)) * 24
      + hour) * 60 + minute) * 60 + second

/-- Models Go's `time.Parse(time.RFC3339, s)` on the UTC whole-second form
`YYYY-MM-DDTHH:MM:SSZ` that the GitHub API emits: `some` of the instant as
seconds from the zero time when `s` is well-formed and in calendar range,
`none` (a parse error in Go) otherwise.  RFC3339 forms the monitor never
receives (numeric offsets, fractional seconds) are out of this model. -/
def parseRFC3339 (s : String) : Option Nat :=
  match s.toList with
  | [y1, y2, y3, y4, d1, m1, m2, d2, a1, a2, t0, h1, h2, c1, n1, n2, c2, s1, s2, z0] =>
    if d1 = '-' ∧ d2 = '-' ∧ t0 = 'T' ∧ c1 = ':' ∧ c2 = ':' ∧ z0 = 'Z' then
      match parseDigits [y1, y2, y3, y4], parseDigits [m1, m2],
          parseDigits [a1, a2], parseDigits [h1, h2], parseDigits [n1, n2],
          parseDigits [s1, s2] with
      | some year, some month, some day, some hour, some minute, some second =>
        if 1 ≤ year ∧ 1 ≤ month ∧ month ≤ 12 ∧ 1 ≤ day ∧
            day ≤ daysInMonth year month ∧ hour ≤ 23 ∧ minute ≤ 59 ∧
            second ≤ 59 then
          some (secondsFromZeroTime year month day hour minute second)
        else none
      | _, _, _, _, _, _ => none
    else none
  | _ => none

/-- Models Go's `t, _ := time.Parse(time.RFC3339, s)`: the parse error is
discarded, so a malformed string yields the zero time (0 seconds). -/
def goParseTime (s : String) : Int :=
  ((parseRFC3339 s).getD 0 : Nat)

/-- The duration `analyzeFailure` reports for a failed step
(monitor/main.go lines 385-390): only when both timestamp strings are
non-empty, the difference of the two parsed times, parse errors discarded.
The subtraction of whole-second instants is already in whole seconds, so
Go's `duration.Round(time.Second)` is the identity here. -/
def stepDuration (step : GitHubJobStep) : Option Int :=
  if step.started_at ≠ "" ∧ step.completed_at ≠ "" then
    some (goParseTime step.completed_at - goParseTime step.started_at)
  else none

/-- One failure point of the analyzer's narrative: the job name, step
number, step name and optional duration logged at monitor/main.go lines
384-390 for each failed step of a failed job. -/
structure FailurePoint where
  jobName : String
  stepNumber : Int
  stepName : String
  duration : Option Int
deriving DecidableEq

/-- The failure points the inner step loop of `analyzeFailure`
(monitor/main.go lines 378-392) emits for one failed job: steps are walked
in slice order; each step with conclusion `"failure"` yields one point. -/
def failurePointsOfSteps (jobName : String) : List GitHubJobStep → List FailurePoint
  | [] => []
  | step :: rest =>
    if step.conclusion = "failure" then
      ⟨jobName, step.number, step.name, stepDuration step⟩ ::
        failurePointsOfSteps jobName rest
    else failurePointsOfSteps jobName rest

/-- Embeds the job loop of `analyzeFailure` (monitor/main.go lines
372-397), applied to the fetched jobs list: jobs are walked in slice order
and only a job whose conclusion is `"failure"` gets the step-by-step
analysis. -/
def analyzeFailure : List GitHubJob → List FailurePoint
  | [] => []
  | job :: rest =>
    (if job.conclusion = "failure" then failurePointsOfSteps job.name job.steps
     else []) ++ analyzeFailure rest

/-- The status text the loop builds for GitLab (monitor/main.go lines
545-548): `"GitHub Actions (env): status"` with the conclusion appended in
brackets when non-empty. -/
def describeRun (environment : String) (run : GitHubWorkflowRun) : String :=
  "GitHub Actions (" ++ environment ++ "): " ++ run.status ++
    (if run.conclusion ≠ "" then " (" ++ run.conclusion ++ ")" else "")

/-- The 45-minute monitoring ceiling (monitor/main.go line 587,
`45*time.Minute`), in nanoseconds as Go durations are. -/
def timeoutCeiling : Int := 45 * 60 * 1000000000

/-- The network results one loop iteration consumes.  `runsResult` is the
outcome of `getWorkflowRuns` (`none`: any transport / non-2xx / decode
error); `detailFetch` is `getSpecificWorkflowRun` by run id;
`publishOutcome` is the HTTP round-trip behind `updateGitLabStatus`, should
the tick publish; `elapsed` is `time.Now().Sub(monitoringStart)` in
nanoseconds at the top of the iteration. -/
structure TickInput where
  runsResult : Option (List GitHubWorkflowRun)
  detailFetch : Int → Option GitHubWorkflowRun
  publishOutcome : HTTPOutcome
  elapsed : Int

/-- How an iteration of the monitoring loop ends, when it ends: `break` at
monitor/main.go line 583 with the completed run (Terminal), or `break` at
line 589 after the timeout check (TimedOut). -/
inductive ExitKind where
  | terminal (run : GitHubWorkflowRun)
  | timedOut
deriving DecidableEq

/-- Everything one loop iteration decides: the baseline carried to the next
iteration, the arguments `(state, description, targetURL, commitSHA)` of the
`updateGitLabStatus` call when one was made, and whether the loop breaks. -/
structure TickOutcome where
  next : TrackedState
  published : Option (String × String × String × String)
  exit : Option ExitKind

/-- The run located by a tick, if any: `getWorkflowRuns` must succeed and
the candidate scan (`locateRun`) must produce a run. -/
def locatedRun (branchName : String) (inp : TickInput) : Option GitHubWorkflowRun :=
  match inp.runsResult with
  | none => none
  | some runs => locateRun branchName inp.detailFetch runs

/-- Embeds one iteration of the monitoring loop of `startMonitoring`
(monitor/main.go lines 488-593).  A failed run-list fetch or an unlocated
run executes `continue` — sleeping and re-entering the loop with the
baseline untouched, before the timeout check is reached.  With a located
run, the change test decides whether to publish and to overwrite the
baseline (lines 537-559; the publish outcome only selects a log line, so it
affects neither); `status == "completed"` breaks out as Terminal (line 583),
otherwise `elapsed > 45*time.Minute` breaks out as TimedOut (line 589), and
otherwise the loop sleeps and repeats. -/
def monitorTick (branchName environment : String) (st : TrackedState)
    (inp : TickInput) : TickOutcome :=
  match locatedRun branchName inp with
  | none => ⟨st, none, none⟩
  | some run =>
    let changed := statusChanged st run
    let published :=
      if changed then
        some (mapToGitLabState run.status run.conclusion,
          describeRun environment run, run.html_url, run.head_sha)
      else none
    let st' := if changed then ⟨run.status, run.conclusion, run.id⟩ else st
    if run.status = "completed" then ⟨st', published, some (.terminal run)⟩
    else if inp.elapsed > timeoutCeiling then ⟨st', published, some .timedOut⟩
    else ⟨st', published, none⟩

/-- How a finite prefix of the loop's execution ends: the loop broke with an
exit kind, or it consumed every supplied tick and is still iterating. -/
inductive LoopResult where
  | exited (e : ExitKind) (st : TrackedState)
  | running (st : TrackedState)
deriving DecidableEq

/-- Runs the monitoring loop over a finite stream of tick inputs. -/
def runLoop (branchName environment : String) (st : TrackedState) :
    List TickInput → LoopResult
  | [] => .running st
  | inp :: rest =>
    let out := monitorTick branchName environment st inp
    match out.exit with
    | some e => .exited e out.next
    | none => runLoop branchName environment out.next rest

/-- All `updateGitLabStatus` invocations (their arguments, in order) made
while running the loop over a finite stream of tick inputs. -/
def runLoopPublishes (branchName environment : String) (st : TrackedState) :
    List TickInput → List (String × String × String × String)
  | [] => []
  | inp :: rest =>
    let out := monitorTick branchName environment st inp
    out.published.toList ++
      match out.exit with
      | some _ => []
      | none => runLoopPublishes branchName environment out.next rest

/-- The configuration surface `validateConfig` checks (monitor/main.go
lines 68-80, the fields read from the environment). -/
structure MonitorConfig where
  githubToken : String
  githubRepo : String
  gitlabToken : String
  gitlabProjectID : String
  branchName : String
  environment : String
deriving DecidableEq

/-- Embeds `validateConfig` (monitor/main.go lines 445-462): the first
missing required setting, as an error message, else `none`. -/
def validateConfig (cfg : MonitorConfig) : Option String :=
  if cfg.githubToken = "" then some "GITHUB_TOKEN is required"
  else if cfg.githubRepo = "" then some "GITHUB_REPO is required"
  else if cfg.gitlabToken = "" then some "GITLAB_TOKEN is required"
  else if cfg.gitlabProjectID = "" then some "GITLAB_PROJECT_ID is required"
  else if cfg.branchName = "" then some "BRANCH_NAME is required"
  else none

/-- What `startMonitoring` came to: a configuration error returned before
the loop, a loop exit, or the loop still iterating. -/
inductive MonitorOutcome where
  | configError (msg : String)
  | loopExited (e : ExitKind) (st : TrackedState)
  | loopRunning (st : TrackedState)
deriving DecidableEq

/-- Embeds `startMonitoring` (monitor/main.go lines 465-596): a failed
`validateConfig` returns the wrapped error before the loop is entered;
otherwise the loop runs from the zero-value baseline, and every `break` out
of it falls through to `return nil`. -/
def startMonitoring (cfg : MonitorConfig) (ticks : List TickInput) :
    MonitorOutcome :=
  match validateConfig cfg with
  | some msg => .configError ("configuration error: " ++ msg)
  | none =>
    match runLoop cfg.branchName cfg.environment initialTracked ticks with
    | .exited e st => .loopExited e st
    | .running st => .loopRunning st

/-- Embeds `main` (monitor/main.go lines 598-605): `os.Exit(1)` exactly
when `startMonitoring` returned an error, which it does only for a
configuration error; every loop exit returns `nil` and the process ends
with code 0.  While the loop is still iterating the process has not
exited, so no code exists yet (`none`). -/
def mainExitCode (cfg : MonitorConfig) (ticks : List TickInput) : Option Nat :=
  match startMonitoring cfg ticks with
  | .configError _ => some 1
  | .loopExited _ _ => some 0
  | .loopRunning _ => none

/-- A run value with representative non-tracked fields, used for concrete
instantiations. -/
def sampleRun (id : Int) (status conclusion branch : String) : GitHubWorkflowRun :=
  { id := id, name := "Deploy", status := status, conclusion := conclusion,
    created_at := "2024-05-01T09:59:00Z", updated_at := "2024-05-01T10:00:00Z",
    run_started_at := "2024-05-01T09:59:30Z",
    html_url := "https://github.com/acme/app/actions/runs/9",
    head_sha := "abc123", head_branch := branch,
    event := "workflow_dispatch", run_number := 4, run_attempt := 1 }

/-- C1: for every (status, conclusion) pair of the mapping table,
mapToGitLabState returns exactly the tabulated target state — queued to
pending, in_progress to running, completed/success to success,
completed/failure to failed, completed/cancelled to canceled, completed
with any other or unset conclusion to failed — any other status falls
through to pending, and the function is total with values in the closed
five-state set, with no error path. -/
theorem mapToGitLabState_table :
    (∀ c, mapToGitLabState "queued" c = "pending") ∧
    (∀ c, mapToGitLabState "in_progress" c = "running") ∧
    mapToGitLabState "completed" "success" = "success" ∧
    mapToGitLabState "completed" "failure" = "failed" ∧
    mapToGitLabState "completed" "cancelled" = "canceled" ∧
    (∀ c, c ≠ "success" → c ≠ "failure" → c ≠ "cancelled" →
      mapToGitLabState "completed" c = "failed") ∧
    (∀ s c, s ≠ "queued" → s ≠ "in_progress" → s ≠ "completed" →
      mapToGitLabState s c = "pending") ∧
    (∀ s c, mapToGitLabState s c = "pending" ∨ mapToGitLabState s c = "running" ∨
      mapToGitLabState s c = "success" ∨ mapToGitLabState s c = "failed" ∨
      mapToGitLabState s c = "canceled") := by
  refine ⟨fun _ => rfl, fun _ => rfl, rfl, rfl, rfl, ?_, ?_, ?_⟩
  · intro c h1 h2 h3
    simp [mapToGitLabState, h1, h2, h3]
  · intro s c h1 h2 h3
    simp [mapToGitLabState, h1, h2, h3]
  · intro s c
    unfold mapToGitLabState
    split_ifs <;> simp

theorem mapToGitLabState_table_witness :
    mapToGitLabState "completed" "neutral" = "failed" ∧
    mapToGitLabState "waiting" "success" = "pending" :=
  ⟨mapToGitLabState_table.2.2.2.2.2.1 "neutral"
      (by decide) (by decide) (by decide),
    mapToGitLabState_table.2.2.2.2.2.2.1 "waiting" "success"
      (by decide) (by decide) (by decide)⟩

/-- C6: an observation is declared changed iff its run id, status or
conclusion differs from the committed baseline (three-way OR); an
observation identical to the committed baseline is not a change; no run
field outside those three affects the change test; and on a tick whose
located run shows no change, nothing is published and the baseline is left
as it was. -/
theorem statusChanged_spec :
    (∀ st r, statusChanged st r = true ↔
      (r.status ≠ st.lastStatus ∨ r.conclusion ≠ st.lastConclusion ∨
        r.id ≠ st.lastRunID)) ∧
    (∀ r : GitHubWorkflowRun,
      statusChanged ⟨r.status, r.conclusion, r.id⟩ r = false) ∧
    (∀ st r r', r.id = r'.id → r.status = r'.status →
      r.conclusion = r'.conclusion → statusChanged st r = statusChanged st r') ∧
    (∀ branchName environment st inp r,
      locatedRun branchName inp = some r → statusChanged st r = false →
      (monitorTick branchName environment st inp).published = none ∧
      (monitorTick branchName environment st inp).next = st) := by
  refine ⟨?_, ?_, ?_, ?_⟩
  · intro st r
    simp [statusChanged, or_assoc]
  · intro r
    simp [statusChanged]
  · intro st r r' h1 h2 h3
    simp [statusChanged, h1, h2, h3]
  · intro branchName environment st inp r hloc hch
    unfold monitorTick
    rw [hloc]
    simp only [hch, Bool.false_eq_true, if_false]
    split_ifs <;> exact ⟨rfl, rfl⟩

theorem statusChanged_spec_witness :
    statusChanged ⟨"in_progress", "", 9⟩ (sampleRun 9 "in_progress" "" "main") = false ∧
    (monitorTick "main" "dev" ⟨"in_progress", "", 9⟩
      ⟨some [sampleRun 9 "in_progress" "" "main"],
        fun i => if i = 9 then some (sampleRun 9 "in_progress" "" "main") else none,
        .response 201, 0⟩).published = none :=
  ⟨statusChanged_spec.2.1 (sampleRun 9 "in_progress" "" "main"),
    (statusChanged_spec.2.2.2 "main" "dev" ⟨"in_progress", "", 9⟩
      ⟨some [sampleRun 9 "in_progress" "" "main"],
        fun i => if i = 9 then some (sampleRun 9 "in_progress" "" "main") else none,
        .response 201, 0⟩
      (sampleRun 9 "in_progress" "" "main") rfl (by decide)).1⟩

/-- C7 counterexample: the claim quantifies over every observed triple, but
a first observation carrying the zero values — run id 0, empty status,
empty conclusion, exactly what Go decodes from a response missing those
fields — is not declared changed, because the baseline starts at those same
zero values rather than at a distinct "no baseline" marker. -/
theorem first_observation_zero_run_not_changed :
    statusChanged initialTracked (sampleRun 0 "" "" "main") = false := by decide

/-- C7 amended: on the first observation after process start the change
check returns true for every observed (id, status, conclusion) triple other
than the zero-value triple (0, empty, empty), since the baseline is
initialized to the Go zero values; in particular every run with a nonzero
id is reported and published. -/
theorem first_observation_changed (r : GitHubWorkflowRun)
    (h : r.id ≠ 0 ∨ r.status ≠ "" ∨ r.conclusion ≠ "") :
    statusChanged initialTracked r = true := by
  simp only [statusChanged, initialTracked, Bool.or_eq_true, bne_iff_ne]
  tauto

theorem first_observation_changed_witness :
    statusChanged initialTracked (sampleRun 7 "queued" "" "main") = true :=
  first_observation_changed (sampleRun 7 "queued" "" "main") (by decide)

/-- C8 counterexample: a tick whose publish round-trip is a transport
error — so updateGitLabStatus returns an error — still overwrites the
baseline with the newly observed triple, because the Go code assigns
lastStatus, lastConclusion and lastRunID unconditionally inside the
statusChanged block, after merely logging the publish warning. -/
theorem baseline_committed_despite_publish_failure :
    updateGitLabStatus HTTPOutcome.transportError = false ∧
    (monitorTick "main" "dev" initialTracked
      ⟨some [sampleRun 9 "in_progress" "" "main"],
        fun i => if i = 9 then some (sampleRun 9 "in_progress" "" "main") else none,
        .transportError, 0⟩).next = ⟨"in_progress", "", 9⟩ ∧
    (⟨"in_progress", "", 9⟩ : TrackedState) ≠ initialTracked :=
  ⟨rfl, rfl, by decide⟩

/-- C8 amended: the baseline is overwritten with the observed (status,
conclusion, id) triple on every tick where a change is detected, whatever
the outcome of the status publish — a failed publish does not keep the
baseline unchanged; it is only left unchanged on no-change ticks and on
ticks that locate no run. -/
theorem baseline_commit_on_change (branchName environment : String)
    (st : TrackedState) (inp : TickInput) (r : GitHubWorkflowRun)
    (pub : HTTPOutcome)
    (hloc : locatedRun branchName inp = some r)
    (hch : statusChanged st r = true) :
    (monitorTick branchName environment st
      { inp with publishOutcome := pub }).next =
      ⟨r.status, r.conclusion, r.id⟩ := by
  have hloc' : locatedRun branchName { inp with publishOutcome := pub } = some r := hloc
  unfold monitorTick
  rw [hloc']
  simp only [hch, if_true]
  split_ifs <;> rfl

theorem baseline_commit_on_change_witness :
    (monitorTick "main" "dev" initialTracked
      ⟨some [sampleRun 9 "in_progress" "" "main"],
        fun i => if i = 9 then some (sampleRun 9 "in_progress" "" "main") else none,
        .transportError, 0⟩).next = ⟨"in_progress", "", 9⟩ :=
  baseline_commit_on_change "main" "dev" initialTracked
    ⟨some [sampleRun 9 "in_progress" "" "main"],
      fun i => if i = 9 then some (sampleRun 9 "in_progress" "" "main") else none,
      .transportError, 0⟩
    (sampleRun 9 "in_progress" "" "main") .transportError rfl (by decide)

/-- C5 counterexample: an HTTP 500 response from the GitLab API does not
make updateGitLabStatus fail — the Go function closes the body and returns
nil without ever reading resp.StatusCode, so a non-2xx response is treated
as success, contradicting the claim that any non-2xx response yields an
error. -/
theorem updateGitLabStatus_accepts_non2xx :
    updateGitLabStatus (HTTPOutcome.response 500) = true := rfl

/-- C5 amended: updateGitLabStatus returns an error only on a transport
error; a response with any HTTP status code, 2xx or not, is treated as
success because the status code is never inspected. In either case the
caller's behaviour is unchanged: the publish outcome only selects a log
line, so the tick's baseline, published arguments and exit decision are
identical whatever the outcome — the caller merely logs and continues. -/
theorem updateGitLabStatus_spec :
    (∀ code, updateGitLabStatus (HTTPOutcome.response code) = true) ∧
    updateGitLabStatus HTTPOutcome.transportError = false ∧
    (∀ (branchName environment : String) (st : TrackedState) (inp : TickInput)
        (pub1 pub2 : HTTPOutcome),
      monitorTick branchName environment st { inp with publishOutcome := pub1 } =
        monitorTick branchName environment st { inp with publishOutcome := pub2 }) :=
  ⟨fun _ => rfl, rfl, fun _ _ _ _ _ _ => rfl⟩

/-- C4 counterexample: a candidate list whose first run matches the branch
selector but whose detail re-fetch fails does not end the scan for that
tick — the Go for-loop only breaks when the re-fetch succeeds, so the scan
continues and reports the second matching candidate, contradicting the
claim that no match is reported in that tick. -/
theorem locateRun_continues_after_failed_refetch :
    (sampleRun 1 "queued" "" "main").head_branch = "main" ∧
    (fun i => if i = (2 : Int) then some (sampleRun 2 "in_progress" "" "main") else none)
      (sampleRun 1 "queued" "" "main").id = none ∧
    locateRun "main"
      (fun i => if i = (2 : Int) then some (sampleRun 2 "in_progress" "" "main") else none)
      [sampleRun 1 "queued" "" "main", sampleRun 2 "queued" "" "main"] =
      some (sampleRun 2 "in_progress" "" "main") :=
  ⟨rfl, rfl, rfl⟩

/-- C4 amended: the locator returns the detail re-fetch of the first run in
list order whose head branch equals the selector and whose re-fetch
succeeds; a matching candidate whose re-fetch fails is skipped and the scan
continues with the remaining candidates; NotFound is reported on an empty
list and when no candidate matches the selector. -/
theorem locateRun_spec :
    (∀ branchName detailFetch,
      locateRun branchName detailFetch [] = none) ∧
    (∀ branchName detailFetch (r : GitHubWorkflowRun) rest det,
      r.head_branch = branchName → detailFetch r.id = some det →
      locateRun branchName detailFetch (r :: rest) = some det) ∧
    (∀ branchName detailFetch (r : GitHubWorkflowRun) rest,
      r.head_branch = branchName → detailFetch r.id = none →
      locateRun branchName detailFetch (r :: rest) =
        locateRun branchName detailFetch rest) ∧
    (∀ branchName detailFetch (r : GitHubWorkflowRun) rest,
      r.head_branch ≠ branchName →
      locateRun branchName detailFetch (r :: rest) =
        locateRun branchName detailFetch rest) ∧
    (∀ branchName detailFetch (runs : List GitHubWorkflowRun),
      (∀ r ∈ runs, r.head_branch ≠ branchName) →
      locateRun branchName detailFetch runs = none) := by
  refine ⟨fun _ _ => rfl, ?_, ?_, ?_, ?_⟩
  · intro branchName detailFetch r rest det hb hd
    simp [locateRun, hb, hd]
  · intro branchName detailFetch r rest hb hd
    simp [locateRun, hb, hd]
  · intro branchName detailFetch r rest hb
    simp [locateRun, hb]
  · intro branchName detailFetch runs hall
    induction runs with
    | nil => rfl
    | cons r rest ih =>
      have hb : r.head_branch ≠ branchName := hall r (List.mem_cons_self r rest)
      simp only [locateRun, if_neg hb]
      exact ih fun x hx => hall x (List.mem_cons_of_mem r hx)

theorem locateRun_spec_witness :
    locateRun "main"
      (fun i => if i = (2 : Int) then some (sampleRun 2 "in_progress" "" "main") else none)
      [sampleRun 2 "queued" "" "main", sampleRun 3 "queued" "" "main"] =
      some (sampleRun 2 "in_progress" "" "main") :=
  locateRun_spec.2.1 "main"
    (fun i => if i = (2 : Int) then some (sampleRun 2 "in_progress" "" "main") else none)
    (sampleRun 2 "queued" "" "main") [sampleRun 3 "queued" "" "main"]
    (sampleRun 2 "in_progress" "" "main") rfl rfl

/-- A tick that locates no run leaves everything untouched: both the failed
run-list fetch and the unlocated run execute the Go continue statement
before the timeout check is reached. -/
theorem monitorTick_no_run (branchName environment : String)
    (st : TrackedState) (inp : TickInput)
    (h : locatedRun branchName inp = none) :
    monitorTick branchName environment st inp = ⟨st, none, none⟩ := by
  unfold monitorTick
  rw [h]

/-- C2: contrary to the claim, a loop in which no tick ever locates a run
never exits at all — in particular it never exits TimedOut, no matter how
far the elapsed time on every tick exceeds the 45-minute ceiling — because
the continue taken on a no-run tick skips the timeout check; the claim is
right that updateGitLabStatus is never invoked in such an execution. -/
theorem searching_timeout_unreachable (branchName environment : String)
    (st : TrackedState) (ticks : List TickInput)
    (h : ∀ inp ∈ ticks, locatedRun branchName inp = none) :
    runLoop branchName environment st ticks = .running st ∧
    runLoopPublishes branchName environment st ticks = [] := by
  induction ticks with
  | nil => exact ⟨rfl, rfl⟩
  | cons inp rest ih =>
    have h0 : locatedRun branchName inp = none :=
      h inp (List.mem_cons_self inp rest)
    have hrest := ih fun x hx => h x (List.mem_cons_of_mem inp hx)
    constructor
    · simp only [runLoop, monitorTick_no_run branchName environment st inp h0]
      exact hrest.1
    · simp only [runLoopPublishes, monitorTick_no_run branchName environment st inp h0,
        Option.toList_none, List.nil_append]
      exact hrest.2

theorem searching_timeout_unreachable_witness :
    runLoop "main" "dev" initialTracked
      [⟨some [], fun _ => none, .response 201, 46 * 60 * 1000000000⟩] =
      .running initialTracked ∧
    runLoopPublishes "main" "dev" initialTracked
      [⟨some [], fun _ => none, .response 201, 46 * 60 * 1000000000⟩] = [] :=
  searching_timeout_unreachable "main" "dev" initialTracked
    [⟨some [], fun _ => none, .response 201, 46 * 60 * 1000000000⟩]
    (fun inp hmem => by
      rw [List.mem_singleton] at hmem
      rw [hmem]
      rfl)

/-- C3: the process exits with code 0 whenever the loop reaches Terminal —
for every run, hence for every conclusion including failure and cancelled —
and a non-zero exit code occurs only when configuration validation fails
(so, a fortiori, only on configuration failure or on a TimedOut with no run
ever located), in which case the code is 1. -/
theorem exit_code_contract :
    (∀ cfg ticks run st,
      startMonitoring cfg ticks = .loopExited (.terminal run) st →
      mainExitCode cfg ticks = some 0) ∧
    (∀ cfg ticks code, mainExitCode cfg ticks = some code → code ≠ 0 →
      validateConfig cfg ≠ none ∧ code = 1) := by
  constructor
  · intro cfg ticks run st h
    simp [mainExitCode, h]
  · intro cfg ticks code h hne
    unfold mainExitCode at h
    rcases hs : startMonitoring cfg ticks with msg | ⟨e, st⟩ | st <;> rw [hs] at h
    · refine ⟨?_, by simpa using h.symm⟩
      unfold startMonitoring at hs
      rcases hv : validateConfig cfg with _ | msg' <;> rw [hv] at hs
      · rcases hr : runLoop cfg.branchName cfg.environment initialTracked ticks <;>
          rw [hr] at hs <;> exact absurd hs (by simp)
      · simp [hv]
    · exact absurd (by simpa using h.symm) hne
    · exact absurd h (by simp)

theorem exit_code_contract_witness :
    mainExitCode ⟨"ghtoken", "acme/app", "gltoken", "42", "main", "dev"⟩
      [⟨some [sampleRun 7 "completed" "cancelled" "main"],
        fun i => if i = 7 then some (sampleRun 7 "completed" "cancelled" "main") else none,
        .response 201, 0⟩] = some 0 :=
  exit_code_contract.1 ⟨"ghtoken", "acme/app", "gltoken", "42", "main", "dev"⟩
    [⟨some [sampleRun 7 "completed" "cancelled" "main"],
      fun i => if i = 7 then some (sampleRun 7 "completed" "cancelled" "main") else none,
      .response 201, 0⟩]
    (sampleRun 7 "completed" "cancelled" "main") ⟨"completed", "cancelled", 7⟩ rfl

/-- The step walk of one job emits exactly the failed steps, in step-list
order, as failure points. -/
theorem failurePointsOfSteps_eq (jobName : String) (steps : List GitHubJobStep) :
    failurePointsOfSteps jobName steps =
      (steps.filter (fun s => s.conclusion = "failure")).map
        (fun s => ⟨jobName, s.number, s.name, stepDuration s⟩) := by
  induction steps with
  | nil => rfl
  | cons s rest ih =>
    by_cases h : s.conclusion = "failure" <;>
      simp [failurePointsOfSteps, List.filter_cons, h, ih]

/-- The step numbers of a job's failure points form a sublist of the job's
step numbers. -/
theorem failurePoints_numbers_sublist (jobName : String) (steps : List GitHubJobStep) :
    ((failurePointsOfSteps jobName steps).map FailurePoint.stepNumber).Sublist
      (steps.map GitHubJobStep.number) := by
  induction steps with
  | nil => exact List.Sublist.refl _
  | cons s rest ih =>
    by_cases h : s.conclusion = "failure"
    · simp only [failurePointsOfSteps, if_pos h, List.map_cons]
      exact ih.cons₂ s.number
    · simp only [failurePointsOfSteps, if_neg h, List.map_cons]
      exact ih.cons s.number

/-- The job walk concatenates the per-job analyses in job-list order. -/
theorem analyzeFailure_eq_bind (jobs : List GitHubJob) :
    analyzeFailure jobs = jobs.flatMap (fun job =>
      if job.conclusion = "failure" then failurePointsOfSteps job.name job.steps
      else []) := by
  induction jobs with
  | nil => rfl
  | cons job rest ih => simp [analyzeFailure, List.flatMap_cons, ih]

/-- An empty timestamp string never parses. -/
theorem parseRFC3339_empty : parseRFC3339 "" = none := rfl

/-- C9: for a failed run, the analyzer emits failure points exactly for the
steps with conclusion failure inside jobs with conclusion failure,
preserving job order as fetched and, within a job, the step walk order —
hence ascending step number whenever the job's steps are sorted by number;
each point carries duration completedAt − startedAt in whole seconds when
both timestamps are present (here: present and parseable), omits it when a
timestamp is absent, and a job with conclusion success contributes zero
points. -/
theorem analyzeFailure_spec (jobs : List GitHubJob)
    (hsorted : ∀ job ∈ jobs,
      (job.steps.map GitHubJobStep.number).Pairwise (· < ·)) :
    analyzeFailure jobs = jobs.flatMap (fun job =>
      if job.conclusion = "failure" then
        (job.steps.filter (fun s => s.conclusion = "failure")).map
          (fun s => ⟨job.name, s.number, s.name, stepDuration s⟩)
      else []) ∧
    (∀ job ∈ jobs, job.conclusion = "success" → analyzeFailure [job] = []) ∧
    (∀ job ∈ jobs,
      ((failurePointsOfSteps job.name job.steps).map
        FailurePoint.stepNumber).Pairwise (· < ·)) ∧
    (∀ (step : GitHubJobStep) (t1 t2 : Nat),
      parseRFC3339 step.started_at = some t1 →
      parseRFC3339 step.completed_at = some t2 →
      stepDuration step = some ((t2 : Int) - (t1 : Int))) ∧
    (∀ step : GitHubJobStep, step.started_at = "" ∨ step.completed_at = "" →
      stepDuration step = none) := by
  refine ⟨?_, ?_, ?_, ?_, ?_⟩
  · rw [analyzeFailure_eq_bind]
    simp only [failurePointsOfSteps_eq]
  · intro job _ hsucc
    simp [analyzeFailure, hsucc]
  · intro job hj
    exact List.Pairwise.sublist (failurePoints_numbers_sublist job.name job.steps)
      (hsorted job hj)
  · intro step t1 t2 h1 h2
    have hs : step.started_at ≠ "" := by
      intro he
      rw [he, parseRFC3339_empty] at h1
      exact Option.noConfusion h1
    have hc : step.completed_at ≠ "" := by
      intro he
      rw [he, parseRFC3339_empty] at h2
      exact Option.noConfusion h2
    unfold stepDuration
    rw [if_pos ⟨hs, hc⟩]
    unfold goParseTime
    rw [h1, h2]
    rfl
  · intro step h
    unfold stepDuration
    rcases h with h | h <;> simp [h]

/-- A failed job used for concrete evaluation: two steps, the second one
failing after seven seconds. -/
def exampleFailedJob : GitHubJob :=
  { id := 21, run_id := 9, name := "deploy-dev", status := "completed",
    conclusion := "failure", created_at := "2024-05-01T09:59:50Z",
    started_at := "2024-05-01T10:00:00Z", completed_at := "2024-05-01T10:00:20Z",
    html_url := "https://github.com/acme/app/runs/21",
    steps := [
      { name := "Checkout", status := "completed", conclusion := "success",
        number := 1, started_at := "2024-05-01T10:00:00Z",
        completed_at := "2024-05-01T10:00:03Z" },
      { name := "Run deploy script", status := "completed",
        conclusion := "failure", number := 2,
        started_at := "2024-05-01T10:00:10Z",
        completed_at := "2024-05-01T10:00:17Z" }] }

theorem analyzeFailure_spec_witness :
    analyzeFailure [exampleFailedJob] =
      [{ jobName := "deploy-dev", stepNumber := 2,
         stepName := "Run deploy script", duration := some 7 }] := by
  have h := (analyzeFailure_spec [exampleFailedJob] (by decide)).1
  rw [h]
  decide

/-- A failed step whose two timestamp strings are filled but are not valid
RFC3339 instants. -/
def malformedStep : GitHubJobStep :=
  { name := "Deploy to server", status := "completed", conclusion := "failure",
    number := 3, started_at := "yesterday at noon", completed_at := "a bit later" }

/-- C10: a failed step whose startedAt and completedAt strings are both
non-empty but unparseable still gets a duration on its failure point — the
parse errors are discarded and both times collapse to the zero value, so
the reported duration is 0 seconds when both are malformed — and a duration
is omitted exactly when at least one of the two strings is empty. -/
theorem stepDuration_malformed_reported :
    (∀ step : GitHubJobStep, step.started_at ≠ "" → step.completed_at ≠ "" →
      parseRFC3339 step.started_at = none →
      parseRFC3339 step.completed_at = none →
      stepDuration step = some 0) ∧
    (∀ step : GitHubJobStep, stepDuration step = none ↔
      (step.started_at = "" ∨ step.completed_at = "")) ∧
    (∀ (jobName : String) (step : GitHubJobStep), step.conclusion = "failure" →
      failurePointsOfSteps jobName [step] =
        [{ jobName := jobName, stepNumber := step.number,
           stepName := step.name, duration := stepDuration step }]) := by
  refine ⟨?_, ?_, ?_⟩
  · intro step h1 h2 hp1 hp2
    simp [stepDuration, h1, h2, goParseTime, hp1, hp2]
  · intro step
    unfold stepDuration
    split_ifs with h
    · constructor
      · intro hc
        cases hc
      · intro hc
        rcases hc with hc | hc
        · exact absurd hc h.1
        · exact absurd hc h.2
    · rw [not_and_or, not_not, not_not] at h
      simpa using h
  · intro jobName step h
    simp [failurePointsOfSteps, h]

theorem stepDuration_malformed_reported_witness :
    stepDuration malformedStep = some 0 ∧
    failurePointsOfSteps "deploy-dev" [malformedStep] =
      [{ jobName := "deploy-dev", stepNumber := 3,
         stepName := "Deploy to server", duration := some 0 }] := by
  have h0 : stepDuration malformedStep = some 0 :=
    stepDuration_malformed_reported.1 malformedStep
      (by decide) (by decide) rfl rfl
  refine ⟨h0, ?_⟩
  rw [stepDuration_malformed_reported.2.2 "deploy-dev" malformedStep rfl, h0]
  rfl

end Monitor
